import Mathlib

/-!
Shallow embedding of the orchestration core of `tape_pytorch/main.py`:
the run dispatchers (train / eval / embed), the gridsearch expander and
the pieces of argument handling the spec's claims are about.

Python argument objects (`argparse.Namespace`, parsed JSON configs) are
modelled as association lists from field names to dynamically typed
values; Python's dynamic failures (AttributeError, TypeError, KeyError,
IndexError, ValueError, ImportError, RuntimeError) become an explicit
error type threaded through `Except`.
-/

/-- A dynamically typed Python value, as far as the orchestration core
observes one: integers, strings, booleans, None and lists. -/
inductive PyVal where
  | int (n : Int)
  | str (s : String)
  | bool (b : Bool)
  | pynone
  | list (vs : List PyVal)

/-- The Python exceptions the orchestration core can raise, by the role the
spec's error taxonomy gives them: `valueError` is the spec's ConfigError,
`importError` its FeatureUnavailableError, `runtimeError` (carrying the set
of missing names) its MissingArgumentError, `unknownName` the registry's
UnknownNameError. -/
inductive PyErr where
  | typeError
  | attributeError (name : String)
  | valueError (msg : String)
  | importError
  | runtimeError (missing : List String)
  | keyError (k : String)
  | indexError
  | unknownName (n : String)
deriving DecidableEq

/-- Attribute access `getattr(args, name)` on a namespace modelled as an
association list: the first binding of `name`, or AttributeError. -/
def attr (args : List (String × PyVal)) (name : String) : Except PyErr PyVal :=
  match args.find? (fun kv => kv.1 == name) with
  | some kv => .ok kv.2
  | none => .error (.attributeError name)

/-- Attribute update `setattr(args, k, v)`: replace the binding of `k`
(the one `attr` reads), or append a new one. -/
def setAttr : List (String × PyVal) → String → PyVal → List (String × PyVal)
  | [], k, v => [(k, v)]
  | kv :: rest, k, v =>
    if kv.1 == k then (k, v) :: rest else kv :: setAttr rest k v

/-- Python truthiness, for conditions such as `args.fp16 or ...`. -/
def pyTruthy : PyVal → Bool
  | .int n => n != 0
  | .str s => s != ""
  | .bool b => b
  | .pynone => false
  | .list vs => !vs.isEmpty

/-- Python `v != m` against an integer literal: ints and bools compare by
value, values of any other type are simply unequal to an integer. -/
def pyNeInt (v : PyVal) (m : Int) : Bool :=
  match v with
  | .int n => n != m
  | .bool b => (if b then (1 : Int) else 0) != m
  | _ => true

/-- Python `v < m` against an integer literal: ints and bools order by
value, any other type raises TypeError. -/
def pyLtInt (v : PyVal) (m : Int) : Except PyErr Bool :=
  match v with
  | .int n => .ok (decide (n < m))
  | .bool b => .ok (decide ((if b then (1 : Int) else 0) < m))
  | _ => .error .typeError

/-- Python `v + m` for an integer literal `m`: ints and bools add by value,
any other type (a string-typed coordination address among them) raises
TypeError. -/
def pyAddInt (v : PyVal) (m : Int) : Except PyErr PyVal :=
  match v with
  | .int n => .ok (.int (n + m))
  | .bool b => .ok (.int ((if b then (1 : Int) else 0) + m))
  | _ => .error .typeError

/-! ### The train dispatcher, `run_train` (main.py lines 172-199)

`training.run_train` itself is an out-of-scope collaborator; the dispatcher
only needs its declared parameter names (`inspect.getfullargspec`), which we
pass in as `workflowParams`. The module-level constant `APEX_FOUND` is the
`apexFound` parameter. A successful dispatch returns the resolved
`train_args` dictionary, standing for the one call into the workflow; an
error means the workflow was never invoked. -/

/-- The field names the argument set does not cover: Python's
`set(arg_names) - set(arg_dict.keys())`, kept in `arg_names` order. -/
def missingOf (workflowParams : List String) (args : List (String × PyVal)) :
    List String :=
  workflowParams.filter (fun p => !(args.map Prod.fst).contains p)

/-- The condition of main.py line 186, with Python's left-to-right
short-circuit evaluation: `args.fp16 or args.local_rank != -1`. -/
def fp16OrDistributed (args : List (String × PyVal)) : Except PyErr Bool := do
  let fp16 ← attr args "fp16"
  if pyTruthy fp16 then
    pure true
  else do
    let lr ← attr args "local_rank"
    pure (pyNeInt lr (-1))

/-- The train dispatcher `run_train` (main.py lines 172-199): the
gradient-accumulation precondition, the apex availability check, then the
resolve-by-name reconciliation against the training workflow's parameter
list. -/
def run_train (apexFound : Bool) (workflowParams : List String)
    (args : List (String × PyVal)) : Except PyErr (List (String × PyVal)) := do
  let gas ← attr args "gradient_accumulation_steps"
  let bad ← pyLtInt gas 1
  if bad then
    throw (.valueError "Invalid gradient_accumulation_steps parameter")
  else do
    let cond ← fp16OrDistributed args
    if cond && !apexFound then
      throw .importError
    else do
      let missing := missingOf workflowParams args
      if missing.isEmpty then do
        let trainArgs ← workflowParams.mapM (fun p => do
          let v ← attr args p
          pure (p, v))
        pure trainArgs
      else
        throw (.runtimeError missing)

/-- True when the dispatch outcome is the MissingArgumentError of the spec's
taxonomy (the `RuntimeError` of main.py line 196). -/
def isMissingArgError (r : Except PyErr (List (String × PyVal))) : Bool :=
  match r with
  | .error (.runtimeError _) => true
  | _ => false

/-- True when the dispatch outcome is the spec's ConfigError (a
`ValueError`). -/
def isConfigError : PyErr → Bool
  | .valueError _ => true
  | _ => false

/-! ### Decimal rendering

Python's `str(i)` / `f"_{i}"` for a natural index: a structurally recursive
decimal rendering (fuel is the number itself) so the kernel can evaluate it
on concrete inputs. -/

/-- Little-endian decimal digits of `n`, `[]` for `0`; `fuel` bounds the
recursion and any `fuel >= n` yields the digits of `n`. -/
def decDigitsAux : Nat → Nat → List Nat
  | _, 0 => []
  | 0, _ + 1 => []
  | fuel + 1, n + 1 => (n + 1) % 10 :: decDigitsAux fuel ((n + 1) / 10)

/-- Little-endian decimal digits of `n` (empty for `0`). -/
def decDigits (n : Nat) : List Nat :=
  decDigitsAux n n

/-- Value of a little-endian decimal digit list. -/
def ofDigitsTen : List Nat → Nat
  | [] => 0
  | d :: ds => d + 10 * ofDigitsTen ds

/-- The character of one decimal digit. -/
def digitToChar (d : Nat) : Char :=
  Char.ofNat (48 + d)

/-- The decimal rendering of `n` as a character list, Python's `str(n)`. -/
def decChars (n : Nat) : List Char :=
  if n = 0 then ['0'] else ((decDigits n).map digitToChar).reverse

/-- Python's `str(n)` for a natural number. -/
def natRepr (n : Nat) : String :=
  ⟨decChars n⟩

/-! ### The gridsearch expander, `run_gridsearch` (main.py lines 328-378) -/

/-- The config split of main.py lines 345-349: a field whose value is a
list, except the `metrics` field, is a grid dimension (in insertion order);
every other field is fixed. Returns (fixed fields, grid dimensions). -/
def splitConfig : List (String × PyVal) →
    List (String × PyVal) × List (String × List PyVal)
  | [] => ([], [])
  | (k, v) :: rest =>
    let (fs, gs) := splitConfig rest
    match v with
    | .list vs => if k == "metrics" then ((k, v) :: fs, gs) else (fs, (k, vs) :: gs)
    | _ => ((k, v) :: fs, gs)

/-- The helper `unroll` of main.py line 367: one grid dimension becomes the
list of its (key, value) pairs in the dimension's value order. -/
def unroll (key : String) (values : List PyVal) : List (String × PyVal) :=
  values.map (fun v => (key, v))

/-- `itertools.product` over the unrolled grid dimensions (main.py line
369): all combinations, the first dimension varying slowest, in insertion
order of the dimensions and of each dimension's values. -/
def gridProduct : List (String × List PyVal) → List (List (String × PyVal))
  | [] => [[]]
  | (k, vs) :: rest =>
    (unroll k vs).flatMap (fun kv => (gridProduct rest).map (fun combo => kv :: combo))

/-- One launched gridsearch run: the experiment name assigned at main.py
line 372, the combination overlaid on the copied arguments, the resulting
argument set handed to `run_train_distributed`, and the coordination
address that argument set carries. -/
structure LaunchedRun where
  expName : PyVal
  combo : List (String × PyVal)
  runArgs : List (String × PyVal)
  masterAddr : Except PyErr PyVal

/-- Python `exp_name + "_" + str(i)` (main.py line 372): string
concatenation, TypeError on a non-string experiment name. -/
def appendIndex (e : PyVal) (i : Nat) : Except PyErr PyVal :=
  match e with
  | .str s => .ok (.str (s ++ "_" ++ natRepr i))
  | _ => .error .typeError

/-- The loop of main.py lines 370-378 over the enumerated combinations:
copy the arguments, suffix the experiment name with the combination's
index, overlay the combination, launch `run_train_distributed` on the
copy (recorded as a `LaunchedRun`), then `args.master_addr += 1` on the
shared arguments. A failing increment aborts the loop: the remaining
combinations are never launched. -/
def gridsearchLoop (args : List (String × PyVal))
    (combos : List (List (String × PyVal))) (i : Nat) :
    List LaunchedRun × Option PyErr :=
  match combos with
  | [] => ([], none)
  | combo :: rest =>
    match attr args "exp_name" with
    | .error e => ([], some e)
    | .ok en =>
      match appendIndex en i with
      | .error e => ([], some e)
      | .ok en' =>
        let runArgs := combo.foldl (fun a kv => setAttr a kv.1 kv.2)
          (setAttr args "exp_name" en')
        let run : LaunchedRun :=
          ⟨en', combo, runArgs, attr runArgs "master_addr"⟩
        match attr args "master_addr" with
        | .error e => ([run], some e)
        | .ok ma =>
          match pyAddInt ma 1 with
          | .error e => ([run], some e)
          | .ok ma' =>
            let (rs, err) := gridsearchLoop (setAttr args "master_addr" ma') rest (i + 1)
            (run :: rs, err)

/-- The gridsearch expander `run_gridsearch` (main.py lines 328-378) after
argument/config loading: forces the log level to WARN, sets the shared
batch experiment name (`base`, drawn once from a random batch identifier),
disables save callbacks, expands the grid dimensions into their cartesian
product and runs the launch loop. Returns the launched runs and the error
that aborted the loop, if any. -/
def run_gridsearch (base : String) (args₀ : List (String × PyVal))
    (gridValues : List (String × List PyVal)) : List LaunchedRun × Option PyErr :=
  let args := setAttr (setAttr (setAttr args₀
    "log_level" (.str "WARN")) "exp_name" (.str base)) "save_callback" (.list [])
  gridsearchLoop args (gridProduct gridValues) 0

/-! ### The eval dispatcher, `run_eval` (main.py lines 202-253)

The collaborators `run_eval_epoch`, the registry and the metric functions
are out of scope; they enter as parameters. `κ` is the type of save
callbacks, `μ` of metric functions, `α` of accumulated per-example values
and `β` of metric results. The dispatcher's observable behaviour is a list
of effect events plus its result. -/

/-- The part of the parsed eval/embed argument set the dispatcher prefix
reads. -/
structure EvalArgs where
  from_pretrained : Option String
  local_rank : Int
  save_callback : List String
  metrics : List String

/-- A value of the mixed `save_outputs` dictionary after
`save_outputs.update(metrics)`: accumulated per-example field lists and
computed metric values side by side. -/
inductive MixVal (α β : Type) where
  | fieldVals (vs : List α)
  | metricVal (b : β)

/-- An observable effect of an eval run: device/seed setup, model and
loader construction, the evaluation pass, and the one write of
`results.pkl` into the pretrained-model directory. -/
inductive EvalEvent (α β : Type) where
  | setupDistributed
  | modelSetup
  | ranEpoch
  | wrote (path : String) (content : List (String × MixVal α β))

/-- A registry lookup `registry.get_callback(name)` against the abstract
registry `reg`: UnknownNameError for an unregistered name. -/
def lookupCallback {κ : Type} (reg : String → Option κ) (n : String) :
    Except PyErr κ :=
  match reg n with
  | some c => .ok c
  | none => .error (.unknownName n)

/-- Callback resolution of main.py lines 235-238: look up every named save
callback, then append the `save_predictions` callback whenever at least one
metric is requested and `save_predictions` is not among the named
callbacks. -/
def resolveCallbacks {κ : Type} (reg : String → Option κ)
    (names metricNames : List String) : Except PyErr (List κ) := do
  let cbs ← names.mapM (lookupCallback reg)
  if metricNames.length > 0 && !names.contains "save_predictions" then
    match reg "save_predictions" with
    | some c => pure (cbs ++ [c])
    | none => Except.error (PyErr.unknownName "save_predictions")
  else
    pure cbs

/-- Metric resolution of main.py line 239: look up every named metric,
UnknownNameError for an unregistered name. -/
def resolveMetrics {μ : Type} (regMetric : String → Option μ)
    (names : List String) : Except PyErr (List μ) :=
  names.mapM (fun n =>
    match regMetric n with
    | some m => Except.ok m
    | none => Except.error (PyErr.unknownName n))

/-- Dictionary lookup `d[k]` on an association list, first binding wins. -/
def dictLookup {γ : Type} (k : String) (d : List (String × γ)) : Option γ :=
  (d.find? (fun kv => kv.1 == k)).map Prod.snd

/-- Python `dict.update`: existing keys are overwritten in place, new keys
are appended in order. -/
def dictUpdate {γ : Type} (d : List (String × γ)) (updates : List (String × γ)) :
    List (String × γ) :=
  updates.foldl (fun acc kv =>
    if acc.any (fun kv' => kv'.1 == kv.1) then
      acc.map (fun kv' => if kv'.1 == kv.1 then kv else kv')
    else
      acc ++ [kv]) d

/-- The metric dictionary comprehension of main.py lines 245-246: for each
(name, metric) pair of `zip(args.metrics, metric_functions)`, apply the
metric to the accumulated target and prediction fields; the
`save_outputs[...]` lookups happen inside the comprehension body, so a
missing key raises KeyError only when at least one metric is requested. -/
def computeMetrics {μ α β : Type} (applyMetric : μ → List α → List α → β)
    (targetKey predictionKey : String)
    (saveOutputs : List (String × List α)) (namedFns : List (String × μ)) :
    Except PyErr (List (String × β)) :=
  namedFns.mapM (fun nm =>
    match dictLookup targetKey saveOutputs,
        dictLookup predictionKey saveOutputs with
    | some tgt, some prd => Except.ok (nm.1, applyMetric nm.2 tgt prd)
    | none, _ => Except.error (PyErr.keyError targetKey)
    | some _, none => Except.error (PyErr.keyError predictionKey))

/-- The eval dispatcher `run_eval` (main.py lines 202-253): precondition
checks, device/model/loader setup, callback and metric resolution, one full
pass over the loader (`epochResult`, abstract, given the resolved
callbacks), metric computation over the accumulated target and prediction
fields, and the final write of the merged outputs. Returns the effect
trace and the computed metrics. -/
def run_eval {κ μ α β : Type} (regCb : String → Option κ)
    (regMetric : String → Option μ)
    (epochResult : List κ → Except PyErr (List (String × List α)))
    (applyMetric : μ → List α → List α → β)
    (targetKey predictionKey : String) (args : EvalArgs) :
    List (EvalEvent α β) × Except PyErr (List (String × β)) :=
  if args.from_pretrained.isNone then
    ([], .error (.valueError "Must specify pretrained model"))
  else if args.local_rank != -1 then
    ([], .error (.valueError "TAPE does not support distributed validation pass"))
  else
    let setup : List (EvalEvent α β) := [.setupDistributed, .modelSetup]
    match resolveCallbacks regCb args.save_callback args.metrics with
    | .error e => (setup, .error e)
    | .ok cbs =>
      match resolveMetrics regMetric args.metrics with
      | .error e => (setup, .error e)
      | .ok metricFns =>
        match epochResult cbs with
        | .error e => (setup ++ [.ranEpoch], .error e)
        | .ok saveOutputs =>
          match computeMetrics applyMetric targetKey predictionKey saveOutputs
              (args.metrics.zip metricFns) with
          | .error e => (setup ++ [.ranEpoch], .error e)
          | .ok metrics =>
            let content := dictUpdate
              (saveOutputs.map (fun kv => (kv.1, MixVal.fieldVals (β := β) kv.2)))
              (metrics.map (fun nm => (nm.1, MixVal.metricVal nm.2)))
            let path := (args.from_pretrained.getD "") ++ "/results.pkl"
            (setup ++ [.ranEpoch, .wrote path content], .ok metrics)

/-- True when an eval trace contains a file write. -/
def evalWrote {α β : Type} (events : List (EvalEvent α β)) : Bool :=
  events.any (fun e =>
    match e with
    | .wrote _ _ => true
    | _ => false)

/-! ### The embed dispatcher, `run_embed` (main.py lines 256-307)

The model, the loader and the `save_embedding` callback are out of scope;
one embed run is driven by the per-batch results of
`save_callback(model, batch, outputs)`, a list with one entry per loader
batch in iteration order — either the batch's per-example output fields or
the error that batch raised. -/

/-- The part of the parsed embed argument set the dispatcher reads. -/
structure EmbedArgs where
  from_pretrained : Option String
  local_rank : Int
  outfile : String

/-- An observable effect of an embed run: setup, one processed batch, and
the one write of the serialized artifact. -/
inductive EmbedEvent (α : Type) where
  | setupDistributed
  | modelSetup
  | processedBatch (out : List (String × List α))
  | wrote (path : String) (content : List (String × List α))

/-- The pieces of a character list between occurrences of `/`. -/
def splitOnSlash : List Char → List (List Char)
  | [] => [[]]
  | x :: xs =>
    match splitOnSlash xs with
    | [] => [[]]
    | g :: gs => if x == '/' then [] :: g :: gs else (x :: g) :: gs

/-- The root of a POSIX path as `pathlib` parses it: a leading `/`, kept as
`//` when the path starts with exactly two slashes. -/
def posixRoot : List Char → List Char
  | '/' :: '/' :: '/' :: _ => ['/']
  | '/' :: '/' :: _ => ['/', '/']
  | '/' :: _ => ['/']
  | _ => []

/-- Index of the last `.` in a character list, if any. -/
def lastDotIdx : List Char → Option Nat
  | [] => none
  | c :: rest =>
    match lastDotIdx rest with
    | some i => some (i + 1)
    | none => if c == '.' then some 0 else none

/-- Join path components with `/`. -/
def joinSlash : List (List Char) → List Char
  | [] => []
  | [p] => p
  | p :: ps => p ++ '/' :: joinSlash ps

/-- `Path(outfile).with_suffix(".pkl")` with `pathlib`'s PurePosixPath
semantics: parse the path (keep the root, drop empty and `.` components),
then on the final component replace the last extension — the part from the
last dot, counted as an extension only when that dot is neither leading
nor trailing in the component — by `.pkl`, appending `.pkl` when there is
no extension; a path with no final component (empty, or only a root)
raises ValueError. -/
def pathWithSuffixPkl (s : String) : Except PyErr String :=
  let root := posixRoot s.data
  let comps := (splitOnSlash s.data).filter
    (fun p => !(p.isEmpty || p == ['.']))
  match comps.getLast? with
  | none => .error (.valueError "empty name")
  | some name =>
    let newName :=
      match lastDotIdx name with
      | some i =>
        if 0 < i ∧ i < name.length - 1 then name.take i ++ ".pkl".data
        else name ++ ".pkl".data
      | none => name ++ ".pkl".data
    .ok ⟨root ++ joinSlash (comps.dropLast ++ [newName])⟩

/-- The loop of main.py lines 292-299: process the batches in loader order,
recording each processed batch; the first failing batch aborts the run. -/
def embedLoop {α : Type} (batches : List (Except PyErr (List (String × List α)))) :
    List (EmbedEvent α) × Except PyErr (List (List (String × List α)))  :=
  match batches with
  | [] => ([], .ok [])
  | .error e :: _ => ([], .error e)
  | .ok o :: rest =>
    let (evs, r) := embedLoop rest
    (.processedBatch o :: evs, r.map (o :: ·))

/-- Output concatenation of main.py lines 301-304: the keys of the FIRST
batch's output (`save_outputs[0].keys()`, IndexError when no batch was
yielded); for each such key, the concatenation of that key's value lists
across all batches in iteration order (`itertools.chain.from_iterable`),
KeyError when a later batch lacks the key. -/
def buildOutputDict {α : Type} (outputs : List (List (String × List α))) :
    Except PyErr (List (String × List α)) :=
  match outputs with
  | [] => .error .indexError
  | o₀ :: rest =>
    (o₀.map Prod.fst).mapM (fun k => do
      let vals ← (o₀ :: rest).mapM (fun o =>
        match dictLookup k o with
        | some v => Except.ok v
        | none => Except.error (PyErr.keyError k))
      pure (k, vals.flatten))

/-- The embed dispatcher `run_embed` (main.py lines 256-307): precondition
checks, device/model/loader setup, the batch loop, output concatenation and
the one write of the artifact at the normalized output path. -/
def run_embed {α : Type} (batches : List (Except PyErr (List (String × List α))))
    (args : EmbedArgs) : List (EmbedEvent α) × Except PyErr Unit :=
  if args.from_pretrained.isNone then
    ([], .error (.valueError "Must specify pretrained model"))
  else if args.local_rank != -1 then
    ([], .error (.valueError "TAPE does not support distributed embed pass"))
  else
    let setup : List (EmbedEvent α) := [.setupDistributed, .modelSetup]
    let (evs, r) := embedLoop batches
    match r with
    | .error e => (setup ++ evs, .error e)
    | .ok outputs =>
      match buildOutputDict outputs with
      | .error e => (setup ++ evs, .error e)
      | .ok content =>
        match pathWithSuffixPkl args.outfile with
        | .error e => (setup ++ evs, .error e)
        | .ok path => (setup ++ evs ++ [.wrote path content], .ok ())

/-- True when an embed trace contains a file write. -/
def embedWrote {α : Type} (events : List (EmbedEvent α)) : Bool :=
  events.any (fun e =>
    match e with
    | .wrote _ _ => true
    | _ => false)

/-! ### The save-frequency validator (train parser, main.py lines 97-99)

The `--save-freq` field is validated by `utils.int_or_str`, which is not
part of this repository's files. -/

/-- A validated save frequency: a fixed positive cadence or the sentinel
"improvement". -/
inductive SaveFreq where
  | every (n : Nat)
  | improvement
deriving DecidableEq

/-- Python's `int(s)` on a string of decimal digits: `some` of the value
when the string is nonempty and all digits, `none` otherwise. -/
def strToNat? (s : String) : Option Nat :=
  if s.data ≠ [] ∧ s.data.all (fun c => 48 ≤ c.toNat ∧ c.toNat ≤ 57) then
    some (s.data.foldl (fun n c => n * 10 + (c.toNat - 48)) 0)
  else
    none

/-- Modelled from the spec: `utils.int_or_str`, the `type=` validator of the
`--save-freq` argument (main.py line 97), is not under `src/`; per the spec
the save-frequency field accepts only a positive integer or the literal
string "improvement", failing otherwise. -/
def int_or_str (s : String) : Except String SaveFreq :=
  match strToNat? s with
  | some n => if 0 < n then .ok (.every n) else .error s
  | none => if s = "improvement" then .ok .improvement else .error s

/-- True when the save-frequency validator accepts the raw argument. -/
def saveFreqAccepts (s : String) : Bool :=
  match int_or_str s with
  | .ok _ => true
  | .error _ => false

/-! ### Association-list lemmas -/

theorem attr_setAttr_self (args : List (String × PyVal)) (k : String) (v : PyVal) :
    attr (setAttr args k v) k = .ok v := by
  induction args with
  | nil => simp [setAttr, attr]
  | cons kv rest ih =>
    by_cases h : kv.1 == k
    · simp [setAttr, h, attr]
    · simpa [setAttr, h, attr, List.find?] using ih

theorem attr_setAttr_ne (args : List (String × PyVal)) (k k' : String) (v : PyVal)
    (h : k' ≠ k) : attr (setAttr args k v) k' = attr args k' := by
  have hkk : (k == k') = false := beq_eq_false_iff_ne.mpr (Ne.symm h)
  induction args with
  | nil => simp [setAttr, attr, List.find?, hkk]
  | cons kv rest ih =>
    by_cases hk : (kv.1 == k) = true
    · have hkv : kv.1 = k := by simpa using hk
      have hkv' : (kv.1 == k') = false := by rw [hkv]; exact hkk
      simp [setAttr, hk, attr, List.find?, hkk, hkv']
    · by_cases hk2 : (kv.1 == k') = true
      · simp [setAttr, hk, attr, List.find?, hk2]
      · simp only [setAttr, hk, Bool.false_eq_true, if_false, attr, List.find?, hk2] at ih ⊢
        simpa [hk2] using ih

/-! ### Decimal rendering lemmas -/

theorem decDigitsAux_lt_ten (f n : Nat) : ∀ d ∈ decDigitsAux f n, d < 10 := by
  induction f generalizing n with
  | zero => cases n <;> simp [decDigitsAux]
  | succ f ih =>
    cases n with
    | zero => simp [decDigitsAux]
    | succ m =>
      simp only [decDigitsAux, List.mem_cons]
      intro d hd
      rcases hd with h | h
      · subst h; exact Nat.mod_lt _ (by omega)
      · exact ih _ d h

theorem ofDigitsTen_decDigitsAux (f n : Nat) (h : n ≤ f) :
    ofDigitsTen (decDigitsAux f n) = n := by
  induction f generalizing n with
  | zero =>
    have : n = 0 := Nat.le_zero.mp h
    subst this
    rfl
  | succ f ih =>
    cases n with
    | zero => rfl
    | succ m =>
      have hdiv : (m + 1) / 10 ≤ f := by
        have : (m + 1) / 10 < m + 1 := Nat.div_lt_self (Nat.succ_pos m) (by omega)
        omega
      simp only [decDigitsAux, ofDigitsTen, ih _ hdiv]
      omega

/-- The digit of a decimal character, inverse of `digitToChar` below 10. -/
def charToDigit (c : Char) : Nat :=
  c.toNat - 48

theorem charToDigit_digitToChar (d : Nat) (h : d < 10) :
    charToDigit (digitToChar d) = d := by
  interval_cases d <;> rfl

theorem map_charToDigit_digitToChar (l : List Nat) (h : ∀ d ∈ l, d < 10) :
    (l.map digitToChar).map charToDigit = l := by
  induction l with
  | nil => rfl
  | cons d ds ih =>
    simp only [List.map_cons, List.cons.injEq]
    exact ⟨charToDigit_digitToChar d (h d (by simp)),
      ih (fun x hx => h x (by simp [hx]))⟩

/-- The number a decimal character list denotes: left inverse of
`decChars`. -/
def charsVal (l : List Char) : Nat :=
  ofDigitsTen (l.reverse.map charToDigit)

theorem charsVal_decChars (n : Nat) : charsVal (decChars n) = n := by
  by_cases h : n = 0
  · subst h; rfl
  · have h10 := decDigitsAux_lt_ten n n
    simp only [decChars, if_neg h, charsVal, List.reverse_reverse, decDigits,
      map_charToDigit_digitToChar (decDigitsAux n n) h10]
    exact ofDigitsTen_decDigitsAux n n le_rfl

theorem decChars_injective (m n : Nat) (h : decChars m = decChars n) : m = n := by
  calc m = charsVal (decChars m) := (charsVal_decChars m).symm
    _ = charsVal (decChars n) := by rw [h]
    _ = n := charsVal_decChars n

theorem string_append_data (a b : String) : (a ++ b).data = a.data ++ b.data := by
  cases a; cases b; rfl

theorem appendIndex_suffix_inj (s : String) (i j : Nat)
    (h : s ++ "_" ++ natRepr i = s ++ "_" ++ natRepr j) : i = j := by
  have hd := congrArg String.data h
  simp only [string_append_data] at hd
  have h2 : (natRepr i).data = (natRepr j).data :=
    List.append_cancel_left hd
  exact decChars_injective i j h2

/-! ### Gridsearch loop lemmas -/

theorem gridsearchLoop_int (combos : List (List (String × PyVal))) :
    ∀ (args : List (String × PyVal)) (i : Nat) (a : Int) (base : String),
    attr args "exp_name" = .ok (.str base) →
    attr args "master_addr" = .ok (.int a) →
    (gridsearchLoop args combos i).2 = none ∧
    (gridsearchLoop args combos i).1.map LaunchedRun.combo = combos ∧
    (gridsearchLoop args combos i).1.map LaunchedRun.expName
      = (List.range combos.length).map
          (fun j => PyVal.str (base ++ "_" ++ natRepr (i + j))) := by
  induction combos with
  | nil =>
    intro args i a base he ha
    exact ⟨rfl, rfl, rfl⟩
  | cons combo rest ih =>
    intro args i a base he ha
    have he' : attr (setAttr args "master_addr" (.int (a + 1))) "exp_name"
        = .ok (.str base) := by
      rw [attr_setAttr_ne _ _ _ _ (by decide)]; exact he
    have ha' : attr (setAttr args "master_addr" (.int (a + 1))) "master_addr"
        = .ok (.int (a + 1)) := attr_setAttr_self _ _ _
    obtain ⟨h1, h2, h3⟩ :=
      ih (setAttr args "master_addr" (.int (a + 1))) (i + 1) (a + 1) base he' ha'
    simp only [gridsearchLoop, he, appendIndex, ha, pyAddInt]
    refine ⟨h1, by simpa using h2, ?_⟩
    simp only [List.map_cons, List.length_cons, List.range_succ_eq_map,
      List.map_map]
    refine congrArg₂ _ (by simp) ?_
    rw [h3]
    refine List.map_congr_left ?_
    intro j hj
    simp [Function.comp, Nat.add_comm 1 j, Nat.add_assoc]

/-! ### Cartesian product, batch loop and dictionary lemmas -/

theorem gridProduct_length (dims : List (String × List PyVal)) :
    (gridProduct dims).length = (dims.map (fun d => d.2.length)).prod := by
  induction dims with
  | nil => rfl
  | cons d rest ih =>
    obtain ⟨k, vs⟩ := d
    simp only [gridProduct, unroll, List.length_flatMap, List.map_map,
      List.map_cons, List.prod_cons]
    have hconst : ∀ v ∈ vs,
        ((List.length ∘ fun kv => List.map (fun combo => kv :: combo) (gridProduct rest))
          ∘ fun v => (k, v)) v = (gridProduct rest).length := by
      intro v hv
      simp
    rw [List.map_congr_left hconst, List.map_const', List.sum_replicate,
      smul_eq_mul, ih]

theorem mapM_ok_of_forall {γ δ : Type} (l : List γ) (f : γ → Except PyErr δ)
    (g : γ → δ) (h : ∀ x ∈ l, f x = .ok (g x)) : l.mapM f = .ok (l.map g) := by
  induction l with
  | nil => rfl
  | cons x xs ih =>
    rw [List.mapM_cons, h x (by simp), ih (fun y hy => h y (by simp [hy]))]
    rfl

theorem embedLoop_all_ok {α : Type} (os : List (List (String × List α))) :
    embedLoop (os.map Except.ok) = (os.map EmbedEvent.processedBatch, .ok os) := by
  induction os with
  | nil => rfl
  | cons o rest ih => simp [embedLoop, ih, List.map_cons, Except.map]

theorem embedLoop_no_wrote {α : Type}
    (batches : List (Except PyErr (List (String × List α)))) :
    embedWrote (embedLoop batches).1 = false := by
  induction batches with
  | nil => rfl
  | cons b rest ih =>
    cases b with
    | error e => rfl
    | ok o => simpa [embedLoop, embedWrote] using ih

theorem dictLookup_map_keys {γ : Type} (keys : List String) (g : String → γ)
    (k : String) (hk : k ∈ keys) :
    dictLookup k (keys.map (fun k' => (k', g k'))) = some (g k) := by
  induction keys with
  | nil => cases hk
  | cons k0 ks ih =>
    by_cases h : (k0 == k) = true
    · have hk0 : k0 = k := by simpa using h
      subst hk0
      simp [dictLookup, List.find?, h]
    · have hne : k0 ≠ k := by simpa using h
      have hk' : k ∈ ks := by
        rcases List.mem_cons.mp hk with h1 | h1
        · exact absurd h1.symm hne
        · exact h1
      simpa [dictLookup, List.find?, h] using ih hk'

/-! ## The claims -/

/-- Claim C3: for every integer `gradient_accumulation_steps` value strictly
below 1, the train dispatcher fails with the spec's ConfigError (the
ValueError of main.py lines 181-184), whatever the workflow's parameter
list and the apex state: the outcome is this error before any collaborator
resolution or workflow parameter reconciliation is consulted, so neither
ever happens and the workflow is never invoked. -/
theorem C3_grad_accum_config_error (apexFound : Bool)
    (workflowParams : List String) (args : List (String × PyVal)) (n : Int)
    (hgas : attr args "gradient_accumulation_steps" = .ok (.int n))
    (hn : n < 1) :
    run_train apexFound workflowParams args
      = .error (.valueError "Invalid gradient_accumulation_steps parameter") := by
  unfold run_train
  rw [hgas]
  have hb : decide (n < 1) = true := decide_eq_true hn
  simp only [pyLtInt, Except.bind, bind, hb]
  rfl

/-- Claim C3, witness: at `gradient_accumulation_steps = 0` the dispatcher
returns the ConfigError. -/
theorem C3_grad_accum_config_error_witness :
    run_train true ["learning_rate"]
      [("gradient_accumulation_steps", .int 0), ("fp16", .bool false),
       ("local_rank", .int (-1)), ("learning_rate", .int 1)]
      = .error (.valueError "Invalid gradient_accumulation_steps parameter") :=
  C3_grad_accum_config_error true ["learning_rate"] _ 0 rfl (by decide)

/-- Claim C1, counterexample: an argument set whose field names do not
cover the workflow parameter `batch_size` but whose
`gradient_accumulation_steps` field is 0 makes `run_train` fail with the
ConfigError of lines 181-184, not with a MissingArgumentError enumerating
the missing names — the claim as stated does not hold for every such
argument set. -/
theorem C1_counterexample :
    missingOf ["batch_size"]
      [("gradient_accumulation_steps", .int 0), ("fp16", .bool false),
       ("local_rank", .int (-1))] = ["batch_size"] ∧
    run_train true ["batch_size"]
      [("gradient_accumulation_steps", .int 0), ("fp16", .bool false),
       ("local_rank", .int (-1))]
      = .error (.valueError "Invalid gradient_accumulation_steps parameter") ∧
    isMissingArgError (run_train true ["batch_size"]
      [("gradient_accumulation_steps", .int 0), ("fp16", .bool false),
       ("local_rank", .int (-1))]) = false :=
  ⟨rfl, rfl, rfl⟩

/-- Claim C1 (amended): for every argument set that passes the dispatch
steps preceding the reconciliation — its `gradient_accumulation_steps`
field is an integer at least 1 and the apex availability check of line 186
passes — and whose field names do not cover every parameter name declared
by the training workflow's signature, `run_train` fails with the
MissingArgumentError (the RuntimeError of line 196) whose payload
enumerates exactly the set of missing parameter names, and the training
workflow is not invoked (the outcome is an error, never a resolved
`train_args` call). -/
theorem C1_missing_args (apexFound : Bool) (workflowParams : List String)
    (args : List (String × PyVal)) (n : Int) (c : Bool)
    (hgas : attr args "gradient_accumulation_steps" = .ok (.int n))
    (hn : 1 ≤ n)
    (hcond : fp16OrDistributed args = .ok c)
    (hapex : (c && !apexFound) = false)
    (hmiss : missingOf workflowParams args ≠ []) :
    run_train apexFound workflowParams args
      = .error (.runtimeError (missingOf workflowParams args)) ∧
    ∀ p, p ∈ missingOf workflowParams args ↔
      p ∈ workflowParams ∧ p ∉ args.map Prod.fst := by
  constructor
  · unfold run_train
    rw [hgas]
    have hb : decide (n < 1) = false := decide_eq_false (by omega)
    have hie : (missingOf workflowParams args).isEmpty = false := by
      simpa [List.isEmpty_iff] using hmiss
    simp only [pyLtInt, Except.bind, bind, hb, hcond, hapex, hie]
    rfl
  · intro p
    simp [missingOf, List.mem_filter]

/-- Claim C1, witness for the amended theorem: with
`gradient_accumulation_steps = 1`, the apex check passing and the workflow
parameter `batch_size` uncovered, dispatch fails with the
MissingArgumentError enumerating exactly `batch_size`. -/
theorem C1_missing_args_witness :
    run_train true ["batch_size"]
      [("gradient_accumulation_steps", .int 1), ("fp16", .bool false),
       ("local_rank", .int (-1))]
      = .error (.runtimeError ["batch_size"]) ∧
    ("batch_size" ∈ missingOf ["batch_size"]
      [("gradient_accumulation_steps", .int 1), ("fp16", .bool false),
       ("local_rank", .int (-1))] ↔
      "batch_size" ∈ ["batch_size"] ∧
      "batch_size" ∉ [("gradient_accumulation_steps", PyVal.int 1),
        ("fp16", PyVal.bool false),
        ("local_rank", PyVal.int (-1))].map Prod.fst) :=
  have h := C1_missing_args true ["batch_size"]
    [("gradient_accumulation_steps", .int 1), ("fp16", .bool false),
     ("local_rank", .int (-1))] 1 false rfl (by decide) (by rfl) rfl (by decide)
  ⟨h.1, h.2 "batch_size"⟩

/-- Claim C2 (amended): provided the configuration's coordination address
is integer-valued (only then can Python run the loop's `master_addr += 1`;
on the string-typed address the distributed parser declares, the loop
aborts instead — see the counterexample), gridsearch expansion over grid
dimensions of sizes [a, b, c] launches exactly a×b×c runs and no error:
one run per element of the cartesian product of the dimensions, taken in
insertion order of the dimensions and insertion order of each dimension's
values, and each run is assigned a distinct experiment name formed from
the shared gridsearch batch identifier plus `_` plus the combination's
sequential index. -/
theorem C2_gridsearch_expansion (base : String)
    (args₀ : List (String × PyVal)) (dims : List (String × List PyVal))
    (a : Int) (ha : attr args₀ "master_addr" = .ok (.int a)) :
    (run_gridsearch base args₀ dims).2 = none ∧
    (run_gridsearch base args₀ dims).1.length
      = (dims.map (fun d => d.2.length)).prod ∧
    (run_gridsearch base args₀ dims).1.map LaunchedRun.combo
      = gridProduct dims ∧
    (run_gridsearch base args₀ dims).1.map LaunchedRun.expName
      = (List.range (gridProduct dims).length).map
          (fun j => PyVal.str (base ++ "_" ++ natRepr j)) ∧
    ((run_gridsearch base args₀ dims).1.map LaunchedRun.expName).Pairwise (· ≠ ·) := by
  have he : attr (setAttr (setAttr (setAttr args₀ "log_level" (.str "WARN"))
      "exp_name" (.str base)) "save_callback" (.list [])) "exp_name"
      = .ok (.str base) := by
    rw [attr_setAttr_ne _ _ _ _ (by decide)]
    exact attr_setAttr_self _ _ _
  have ha' : attr (setAttr (setAttr (setAttr args₀ "log_level" (.str "WARN"))
      "exp_name" (.str base)) "save_callback" (.list [])) "master_addr"
      = .ok (.int a) := by
    rw [attr_setAttr_ne _ _ _ _ (by decide), attr_setAttr_ne _ _ _ _ (by decide),
      attr_setAttr_ne _ _ _ _ (by decide)]
    exact ha
  obtain ⟨h1, h2, h3⟩ := gridsearchLoop_int (gridProduct dims) _ 0 a base he ha'
  have hexp : (run_gridsearch base args₀ dims).1.map LaunchedRun.expName
      = (List.range (gridProduct dims).length).map
          (fun j => PyVal.str (base ++ "_" ++ natRepr j)) := by
    simpa using h3
  refine ⟨h1, ?_, h2, hexp, ?_⟩
  · have hl := congrArg List.length h2
    simpa [gridProduct_length dims] using hl
  · rw [hexp, List.pairwise_map]
    refine List.Pairwise.imp ?_ (List.pairwise_lt_range _)
    intro i j hij heq
    have hstr : base ++ "_" ++ natRepr i = base ++ "_" ++ natRepr j := by
      injection heq
    exact absurd (appendIndex_suffix_inj base i j hstr) (Nat.ne_of_lt hij)

/-- Claim C2, witness: over one grid dimension of two values with an
integer coordination address, exactly 1×2 = 2 runs are launched. -/
theorem C2_gridsearch_expansion_witness :
    (run_gridsearch "gridsearch_000042" [("master_addr", PyVal.int 29500)]
      [("learning_rate", [PyVal.int 1, PyVal.int 2])]).1.length
      = ([("learning_rate", [PyVal.int 1, PyVal.int 2])].map
          (fun d => d.2.length)).prod :=
  (C2_gridsearch_expansion "gridsearch_000042"
    [("master_addr", PyVal.int 29500)]
    [("learning_rate", [PyVal.int 1, PyVal.int 2])] 29500 rfl).2.1

/-- Claim C2, counterexample: with the string-typed coordination address
the distributed argument schema declares (default "127.0.0.1"), a grid of
one dimension with two values launches only ONE run, not 1×2 = 2: after
the first launch `args.master_addr += 1` raises TypeError and the loop
aborts, so gridsearch does not launch one run per cartesian-product
element. -/
theorem C2_gridsearch_counterexample :
    (run_gridsearch "gridsearch_000042"
      [("master_addr", PyVal.str "127.0.0.1")]
      [("learning_rate", [PyVal.int 1, PyVal.int 2])]).1.length = 1 ∧
    ([("learning_rate", [PyVal.int 1, PyVal.int 2])].map
      (fun d => d.2.length)).prod = 2 ∧
    (run_gridsearch "gridsearch_000042"
      [("master_addr", PyVal.str "127.0.0.1")]
      [("learning_rate", [PyVal.int 1, PyVal.int 2])]).2
      = some PyErr.typeError :=
  ⟨rfl, rfl, rfl⟩

/-- Claim C5: the failing input is the string-typed coordination address
the distributed parser declares (`--master_addr`, default "127.0.0.1", a
`str`). The increment `args.master_addr += 1` after the first launch is a
string-plus-integer TypeError: no advanced coordination address is ever
produced, the loop aborts, and of three grid combinations only the first
is launched — the code cannot advance the address it is meant to advance. -/
theorem C5_addr_increment_type_error :
    pyAddInt (PyVal.str "127.0.0.1") 1 = .error PyErr.typeError ∧
    (run_gridsearch "gridsearch_000007"
      [("master_addr", PyVal.str "127.0.0.1")]
      [("batch_size", [PyVal.int 16, PyVal.int 32, PyVal.int 64])]).2
      = some PyErr.typeError ∧
    (run_gridsearch "gridsearch_000007"
      [("master_addr", PyVal.str "127.0.0.1")]
      [("batch_size", [PyVal.int 16, PyVal.int 32, PyVal.int 64])]).1.length
      = 1 :=
  ⟨rfl, rfl, rfl⟩

/-- Claim C4: every eval dispatch and every embed dispatch invoked with
`local_rank != -1` fails with the spec's ConfigError (a ValueError) and an
empty effect trace: no device placement and no model setup has occurred,
whatever the registries, the workflow oracles and the remaining
arguments. -/
theorem C4_distributed_rejected {κ μ α β : Type} (regCb : String → Option κ)
    (regMetric : String → Option μ)
    (epochResult : List κ → Except PyErr (List (String × List α)))
    (applyMetric : μ → List α → List α → β)
    (targetKey predictionKey : String) (eargs : EvalArgs)
    (batches : List (Except PyErr (List (String × List α))))
    (margs : EmbedArgs)
    (he : eargs.local_rank ≠ -1) (hm : margs.local_rank ≠ -1) :
    ((run_eval regCb regMetric epochResult applyMetric targetKey
        predictionKey eargs).1 = [] ∧
      ∃ msg, (run_eval regCb regMetric epochResult applyMetric targetKey
        predictionKey eargs).2 = .error (.valueError msg)) ∧
    ((run_embed batches margs).1 = [] ∧
      ∃ msg, (run_embed batches margs).2 = .error (.valueError msg)) := by
  constructor
  · unfold run_eval
    by_cases hp : eargs.from_pretrained.isNone
    · simp [hp]
    · simp [hp, he]
  · unfold run_embed
    by_cases hp : margs.from_pretrained.isNone
    · simp [hp]
    · simp [hp, hm]

/-- Claim C4, witness: a concrete eval dispatch at `local_rank = 0` leaves
an empty effect trace. -/
theorem C4_distributed_rejected_witness :
    (run_eval (fun _ => (none : Option Unit)) (fun _ => (none : Option Unit))
      (fun _ => .ok ([] : List (String × List Unit)))
      (fun _ _ _ => ()) "target" "prediction"
      ⟨some "model_dir", 0, [], []⟩).1 = ([] : List (EvalEvent Unit Unit)) :=
  (C4_distributed_rejected (fun _ => (none : Option Unit))
    (fun _ => (none : Option Unit))
    (fun _ => .ok ([] : List (String × List Unit))) (fun _ _ _ => ())
    "target" "prediction" ⟨some "model_dir", 0, [], []⟩
    [] ⟨some "model_dir", 3, "out.npz"⟩
    (by decide) (by decide)).1.1

/-- Claim C7: whenever an eval run or an embed run fails — its result is an
error, as happens in particular for every failure before the full pass over
the loader completes — its effect trace contains no artifact write at all:
`results.pkl` (eval) and the user-specified output file (embed) are written
only on the success path, after the full pass and the subsequent steps
complete. -/
theorem C7_no_output_on_failed_run {κ μ α β : Type} (regCb : String → Option κ)
    (regMetric : String → Option μ)
    (epochResult : List κ → Except PyErr (List (String × List α)))
    (applyMetric : μ → List α → List α → β)
    (targetKey predictionKey : String) (eargs : EvalArgs)
    (batches : List (Except PyErr (List (String × List α))))
    (margs : EmbedArgs) :
    (∀ e, (run_eval regCb regMetric epochResult applyMetric targetKey
        predictionKey eargs).2 = .error e →
      evalWrote (run_eval regCb regMetric epochResult applyMetric targetKey
        predictionKey eargs).1 = false) ∧
    (∀ e, (run_embed batches margs).2 = .error e →
      embedWrote (run_embed batches margs).1 = false) := by
  constructor
  · intro e he
    by_cases hp : eargs.from_pretrained.isNone
    · simp [run_eval, hp, evalWrote]
    · by_cases hl : (eargs.local_rank != -1) = true
      · simp [run_eval, hp, hl, evalWrote]
      · rcases hres : resolveCallbacks regCb eargs.save_callback eargs.metrics
          with e1 | cbs
        · simp [run_eval, hp, hl, hres, evalWrote]
        · rcases hmet : resolveMetrics regMetric eargs.metrics with e2 | fns
          · simp [run_eval, hp, hl, hres, hmet, evalWrote]
          · rcases hep : epochResult cbs with e3 | so
            · simp [run_eval, hp, hl, hres, hmet, hep, evalWrote]
            · rcases hcm : computeMetrics applyMetric targetKey predictionKey so
                  (eargs.metrics.zip fns) with e4 | metrics
              · simp [run_eval, hp, hl, hres, hmet, hep, hcm, evalWrote]
              · simp [run_eval, hp, hl, hres, hmet, hep, hcm] at he
  · intro e he
    by_cases hp : margs.from_pretrained.isNone
    · simp [run_embed, hp, embedWrote]
    · by_cases hl : (margs.local_rank != -1) = true
      · simp [run_embed, hp, hl, embedWrote]
      · have hw := embedLoop_no_wrote batches
        rcases hloop : embedLoop batches with ⟨evs, r⟩
        rw [hloop] at hw
        cases r with
        | error e3 =>
          simp only [run_embed, hp, hl, hloop] at he ⊢
          simpa [embedWrote, List.any_append] using hw
        | ok outputs =>
          rcases hb : buildOutputDict outputs with e4 | content
          · simp only [run_embed, hp, hl, hloop, hb] at he ⊢
            simpa [embedWrote, List.any_append] using hw
          · rcases hps : pathWithSuffixPkl margs.outfile with e5 | path
            · simp only [run_embed, hp, hl, hloop, hb, hps] at he ⊢
              simpa [embedWrote, List.any_append] using hw
            · simp [run_embed, hp, hl, hloop, hb, hps] at he

/-- Claim C7, witness: a concrete embed run failing at its first batch has
an error outcome and no write in its trace. -/
theorem C7_no_output_on_failed_run_witness :
    embedWrote (run_embed
      ([Except.error PyErr.typeError] :
        List (Except PyErr (List (String × List Unit))))
      (⟨some "m", -1, "out.npz"⟩ : EmbedArgs)).1 = false :=
  (C7_no_output_on_failed_run (fun _ => (none : Option Unit))
    (fun _ => (none : Option Unit))
    (fun _ => .ok ([] : List (String × List Unit))) (fun _ _ _ => ())
    "t" "p" ⟨some "m", -1, [], []⟩
    [Except.error PyErr.typeError] ⟨some "m", -1, "out.npz"⟩).2
    PyErr.typeError rfl

/-- Claim C9: in the eval dispatcher's callback resolution, whenever at
least one metric name is requested and `save_predictions` is not among the
named save callbacks, the registered `save_predictions` callback is
appended to the resolved callback list (so the target and prediction
fields the metric functions consume get accumulated by it). -/
theorem C9_save_predictions_appended {κ : Type} (reg : String → Option κ)
    (names metricNames : List String) (cbs : List κ) (sp : κ)
    (h1 : names.mapM (lookupCallback reg) = .ok cbs)
    (h2 : metricNames ≠ [])
    (h3 : ¬ names.contains "save_predictions")
    (h4 : reg "save_predictions" = some sp) :
    resolveCallbacks reg names metricNames = .ok (cbs ++ [sp]) := by
  have hlen : 0 < metricNames.length := List.length_pos.mpr h2
  have hnc : names.contains "save_predictions" = false := by
    simpa using h3
  unfold resolveCallbacks
  rw [h1]
  simp only [Except.bind, bind, hnc, h4, Bool.not_false, Bool.and_true,
    decide_eq_true hlen]
  rfl

/-- Claim C9, witness: one named callback, one requested metric,
`save_predictions` not among the names — the resolved list gains the
`save_predictions` callback at its end. -/
theorem C9_save_predictions_appended_witness :
    resolveCallbacks
      (fun n => if n == "save_predictions" then some 0
        else if n == "save_embedding" then some 1 else none)
      ["save_embedding"] ["accuracy"] = .ok [1, 0] :=
  C9_save_predictions_appended
    (fun n => if n == "save_predictions" then some 0
      else if n == "save_embedding" then some 1 else none)
    ["save_embedding"] ["accuracy"] [1] 0 (by rfl) (by decide) (by decide) rfl

/-- Claim C10: an embed run over a loader yielding zero batches passes its
preconditions, processes nothing, then fails with the IndexError of
`save_outputs[0]` (main.py line 301) and writes no output file — it does
not serialize an empty artifact. -/
theorem C10_empty_loader_index_error {α : Type} (margs : EmbedArgs)
    (hp : margs.from_pretrained.isSome) (hlr : margs.local_rank = -1) :
    run_embed ([] : List (Except PyErr (List (String × List α)))) margs
      = ([EmbedEvent.setupDistributed, EmbedEvent.modelSetup],
          .error PyErr.indexError) ∧
    embedWrote (run_embed ([] : List (Except PyErr (List (String × List α))))
      margs).1 = false := by
  have hp' : margs.from_pretrained.isNone = false := by
    rcases h : margs.from_pretrained with _ | v
    · rw [h] at hp
      cases hp
    · rfl
  constructor
  · simp [run_embed, hp', hlr, embedLoop, buildOutputDict]
  · simp [run_embed, hp', hlr, embedLoop, buildOutputDict, embedWrote]

/-- Claim C10, witness: the concrete zero-batch embed run fails with
IndexError and an untouched output file. -/
theorem C10_empty_loader_index_error_witness :
    run_embed ([] : List (Except PyErr (List (String × List Nat))))
      ⟨some "m", -1, "out.npz"⟩
      = ([EmbedEvent.setupDistributed, EmbedEvent.modelSetup],
          .error PyErr.indexError) :=
  (C10_empty_loader_index_error ⟨some "m", -1, "out.npz"⟩ rfl rfl).1

/-- Claim C8 (spec-modelled, `utils.int_or_str` is not under `src/`): the
save-freq field of the train argument schema accepts exactly the raw
values that parse as a positive integer or are the literal string
"improvement"; every other value fails validation. -/
theorem C8_save_freq_validation (s : String) :
    saveFreqAccepts s = true ↔
      (∃ n, strToNat? s = some n ∧ 0 < n) ∨ s = "improvement" := by
  unfold saveFreqAccepts int_or_str
  rcases h : strToNat? s with _ | n
  · by_cases hi : s = "improvement" <;> simp [hi]
  · by_cases hn : 0 < n
    · simp [hn]
    · have hi : s ≠ "improvement" := by
        intro he
        rw [he] at h
        have : strToNat? "improvement" = none := rfl
        rw [this] at h
        cases h
      simp [hn, hi]

/-- Claim C6: for an embed run over a loader yielding batches whose
save-callback outputs are o₀ :: rest (every batch succeeds, at least one
batch, and every output field of the first batch is present in every
batch), the run succeeds, the batches are processed in loader iteration
order, and the one artifact — serialized at the output path with its
extension normalized to `.pkl` by `pathlib`'s `with_suffix` — maps each of
its per-example output fields to the concatenation of that field's value
lists from the batches in iteration order, element order preserved within
each batch. -/
theorem C6_embed_concatenation {α : Type} (o₀ : List (String × List α))
    (rest : List (List (String × List α))) (margs : EmbedArgs) (path : String)
    (hp : margs.from_pretrained.isSome) (hlr : margs.local_rank = -1)
    (hpath : pathWithSuffixPkl margs.outfile = .ok path)
    (hkeys : ∀ k ∈ o₀.map Prod.fst, ∀ o ∈ o₀ :: rest,
      (dictLookup k o).isSome) :
    run_embed ((o₀ :: rest).map Except.ok) margs
      = ([EmbedEvent.setupDistributed, EmbedEvent.modelSetup]
          ++ (o₀ :: rest).map EmbedEvent.processedBatch
          ++ [EmbedEvent.wrote path
              ((o₀.map Prod.fst).map (fun k =>
                (k, ((o₀ :: rest).map
                  (fun o => (dictLookup k o).getD [])).flatten)))],
          .ok ()) ∧
    ∀ k ∈ o₀.map Prod.fst,
      dictLookup k ((o₀.map Prod.fst).map (fun k' =>
          (k', ((o₀ :: rest).map
            (fun o => (dictLookup k' o).getD [])).flatten)))
        = some (((o₀ :: rest).map
            (fun o => (dictLookup k o).getD [])).flatten) := by
  have hp' : margs.from_pretrained.isNone = false := by
    rcases h : margs.from_pretrained with _ | v
    · rw [h] at hp
      cases hp
    · rfl
  have hbod : buildOutputDict (o₀ :: rest)
      = .ok ((o₀.map Prod.fst).map (fun k =>
          (k, ((o₀ :: rest).map
            (fun o => (dictLookup k o).getD [])).flatten))) := by
    unfold buildOutputDict
    refine mapM_ok_of_forall _ _ _ ?_
    intro k hk
    have hinner : (o₀ :: rest).mapM (fun o =>
        match dictLookup k o with
        | some v => Except.ok v
        | none => Except.error (PyErr.keyError k))
        = .ok ((o₀ :: rest).map (fun o => (dictLookup k o).getD [])) := by
      refine mapM_ok_of_forall _ _ _ ?_
      intro o ho
      rcases hkv : dictLookup k o with _ | v
      · have := hkeys k hk o ho
        rw [hkv] at this
        cases this
      · simp
    rw [hinner]
    rfl
  constructor
  · simp only [run_embed, hp', hlr, bne_self_eq_false, Bool.false_eq_true,
      if_false]
    rw [embedLoop_all_ok]
    simp [hbod, hpath, Function.comp]
  · intro k hk
    exact dictLookup_map_keys (o₀.map Prod.fst)
      (fun k' => ((o₀ :: rest).map (fun o => (dictLookup k' o).getD [])).flatten)
      k hk

/-- Claim C6, witness: two concrete batches, fields `seq` and `pooled` —
the artifact concatenates per-field value lists in batch order. -/
theorem C6_embed_concatenation_witness :
    run_embed ([Except.ok [("seq", [1]), ("pooled", [10])],
        Except.ok [("seq", [2, 3]), ("pooled", [20])]] :
        List (Except PyErr (List (String × List Nat))))
      ⟨some "m", -1, "out.npz"⟩
      = ([EmbedEvent.setupDistributed, EmbedEvent.modelSetup,
          EmbedEvent.processedBatch [("seq", [1]), ("pooled", [10])],
          EmbedEvent.processedBatch [("seq", [2, 3]), ("pooled", [20])],
          EmbedEvent.wrote "out.pkl"
            [("seq", [1, 2, 3]), ("pooled", [10, 20])]],
         .ok ()) :=
  (C6_embed_concatenation [("seq", [1]), ("pooled", [10])]
    [[("seq", [2, 3]), ("pooled", [20])]] ⟨some "m", -1, "out.npz"⟩
    "out.pkl" rfl rfl (by rfl) (by decide)).1
